import Mathlib

/-!
Verification of the receptor middleware layer and task resource schema.

The repository ships the middleware behavioural tests
(`handlers/middleware_test.go`) and the task resource schema (`resources.go`).
The middleware implementation itself (`handlers.CORSWrapper`,
`handlers.CookieAuthWrap`, `handlers.BasicAuthWrap`, `receptor.Error`) is not
part of the visible sources, so those operations are modelled from the spec;
the resource schema is embedded directly from `resources.go`.

Requests, responses and header maps follow Go `net/http` semantics:
`Header.Get` returns the first value for a key, or the empty string when the
key is absent; `Header.Set` replaces every prior binding of the key.
A decorator is modelled as a function from a wrapped handler and a request to
the produced response together with the list of requests actually forwarded to
the wrapped handler (so the length of that list is the wrapped handler's call
count, and its entries are the request values the wrapped handler observed).
-/

namespace Receptor

/-- A header (or cookie) map: an association list from names to values,
mirroring Go `net/http` header maps observed through Get/Set. -/
abbrev Headers := List (String × String)

/-- First value bound to a key, `none` when the key is absent
(Go `Header.Get` / cookie lookup, presence included). -/
def getEntry : Headers → String → Option String
  | [], _ => none
  | (k, v) :: hs, key => if k = key then some v else getEntry hs key

/-- Go `Header.Get`: first value bound to the key, or `""` when absent. -/
def getEntryD (hs : Headers) (key : String) : String :=
  (getEntry hs key).getD ""

/-- Go `Header.Set`: drop every prior binding of the key, bind it to `v`. -/
def setEntry (hs : Headers) (key v : String) : Headers :=
  (hs.filter fun p => p.1 != key) ++ [(key, v)]

/-- An HTTP request as the middleware observes it: method, header map and
cookie map (Go `http.Request`). -/
structure Request where
  method : String
  headers : Headers
  cookies : Headers
deriving DecidableEq

/-- An HTTP response as recorded by the response writer: status code, header
map and body (Go `httptest.ResponseRecorder`). -/
structure Response where
  status : Nat
  headers : Headers
  body : String
deriving DecidableEq

theorem getEntry_setEntry_same (hs : Headers) (key v : String) :
    getEntry (setEntry hs key v) key = some v := by
  induction hs with
  | nil => simp [setEntry, getEntry]
  | cons p hs ih =>
      by_cases h : p.1 = key
      · simpa [setEntry, h] using ih
      · simpa [setEntry, getEntry, h] using ih

theorem getEntry_setEntry_other (hs : Headers) (key v key2 : String)
    (h : key2 ≠ key) : getEntry (setEntry hs key v) key2 = getEntry hs key2 := by
  induction hs with
  | nil => simp [setEntry, getEntry, Ne.symm h]
  | cons p hs ih =>
      by_cases hk : p.1 = key
      · have e1 : setEntry (p :: hs) key v = setEntry hs key v := by
          simp [setEntry, hk]
        have e2 : getEntry (p :: hs) key2 = getEntry hs key2 := by
          rw [getEntry, if_neg]
          intro h2
          exact absurd (h2.symm.trans hk) h
        rw [e1, e2, ih]
      · have e1 : setEntry (p :: hs) key v = p :: setEntry hs key v := by
          simp [setEntry, hk]
        rw [e1, getEntry, getEntry]
        by_cases h2 : p.1 = key2
        · rw [if_pos h2, if_pos h2]
        · rw [if_neg h2, if_neg h2, ih]

theorem getEntryD_setEntry_same (hs : Headers) (key v : String) :
    getEntryD (setEntry hs key v) key = v := by
  simp [getEntryD, getEntry_setEntry_same]

/-- Modelled from the spec: the platform's canonical textual description of a
status code (Go `http.StatusText`), restricted to the codes this layer uses. -/
def statusText (code : Nat) : String :=
  if code = 200 then "OK" else if code = 401 then "Unauthorized" else ""

/-- Modelled from the spec: `receptor.Error`, a tagged value with a `Type`
(enumerated symbol such as "Unauthorized") and a human-readable `Message`;
`receptor.Error` itself is not among the visible sources. -/
structure Error where
  type : String
  message : String
deriving DecidableEq

/-- Modelled from the spec: the Error Responder's JSON serialization of an
`Error` — a two-field object with keys "type" and "message". -/
def errorJSON (e : Error) : String :=
  "\x7b\"type\":\"" ++ e.type ++ "\",\"message\":\"" ++ e.message ++ "\"\x7d"

/-- Modelled from the spec: the `receptor.Unauthorized` error type symbol. -/
def unauthorizedType : String := "Unauthorized"

/-- Value of a standard base64 alphabet character, `none` for any other
character (standard encoding, as used by HTTP Basic credentials). -/
def base64Val (c : Char) : Option Nat :=
  if 'A' ≤ c ∧ c ≤ 'Z' then some (c.toNat - 'A'.toNat)
  else if 'a' ≤ c ∧ c ≤ 'z' then some (c.toNat - 'a'.toNat + 26)
  else if '0' ≤ c ∧ c ≤ '9' then some (c.toNat - '0'.toNat + 52)
  else if c = '+' then some 62
  else if c = '/' then some 63
  else none

/-- Standard base64 decoding of a character list into byte values: groups of
four characters yield three bytes, with `=` padding allowed only at the end. -/
def base64Decode : List Char → Option (List Nat)
  | [] => some []
  | c1 :: c2 :: '=' :: '=' :: [] => do
      let v1 ← base64Val c1
      let v2 ← base64Val c2
      pure [v1 * 4 + v2 / 16]
  | c1 :: c2 :: c3 :: '=' :: [] => do
      let v1 ← base64Val c1
      let v2 ← base64Val c2
      let v3 ← base64Val c3
      pure [v1 * 4 + v2 / 16, (v2 % 16) * 16 + v3 / 4]
  | c1 :: c2 :: c3 :: c4 :: rest => do
      let v1 ← base64Val c1
      let v2 ← base64Val c2
      let v3 ← base64Val c3
      let v4 ← base64Val c4
      let tail ← base64Decode rest
      pure ([v1 * 4 + v2 / 16, (v2 % 16) * 16 + v3 / 4, (v3 % 4) * 64 + v4] ++ tail)
  | _ => none

/-- Split a byte sequence at its first `:` (Go `strings.Cut` on ":" as used by
`http.Request.BasicAuth`): the part before and the part after. -/
def splitColon : List Char → Option (List Char × List Char)
  | [] => none
  | ':' :: rest => some ([], rest)
  | c :: rest => (splitColon rest).map fun p => (c :: p.1, p.2)

/-- Modelled from the spec: parsing standard HTTP Basic credentials out of an
`Authorization` header value — a "Basic " scheme prefix followed by the
base64-encoded `username:password` pair (spec glossary; Go
`http.Request.BasicAuth`). `http.Request.BasicAuth` is not among the visible
sources. -/
def parseBasicAuth (auth : String) : Option (String × String) :=
  match auth.toList with
  | 'B' :: 'a' :: 's' :: 'i' :: 'c' :: ' ' :: rest =>
      match base64Decode rest with
      | some bytes =>
          match splitColon (bytes.map Char.ofNat) with
          | some (u, p) => some (String.mk u, String.mk p)
          | none => none
      | none => none
  | _ => none

/-- Modelled from the spec: whether a request is a CORS preflight — method
`OPTIONS` carrying an `Access-Control-Request-Method` header. -/
def isPreflight (req : Request) : Bool :=
  req.method == "OPTIONS" && (getEntry req.headers "Access-Control-Request-Method").isSome

/-- Modelled from the spec: `handlers.CORSWrapper`, whose implementation is
not among the visible sources. A preflight request is answered directly with
status 200 and the four echoing CORS headers, forwarding nothing; otherwise
the request is forwarded, and when `Origin` is non-empty and not `"*"` the
two CORS annotation headers are set on the wrapped handler's response. The
second component lists the requests forwarded to the wrapped handler. -/
def corsWrapper (handler : Request → Response) (req : Request) :
    Response × List Request :=
  if isPreflight req then
    ({ status := 200,
       headers :=
         [("Access-Control-Allow-Origin", getEntryD req.headers "Origin"),
          ("Access-Control-Allow-Credentials", "true"),
          ("Access-Control-Allow-Methods",
            getEntryD req.headers "Access-Control-Request-Method"),
          ("Access-Control-Allow-Headers",
            getEntryD req.headers "Access-Control-Request-Headers")],
       body := "" }, [])
  else if getEntryD req.headers "Origin" ≠ "" ∧ getEntryD req.headers "Origin" ≠ "*" then
    ({ handler req with
        headers :=
          setEntry
            (setEntry (handler req).headers "Access-Control-Allow-Origin"
              (getEntryD req.headers "Origin"))
            "Access-Control-Allow-Credentials" "true" }, [req])
  else (handler req, [req])

/-- Modelled from the spec: `handlers.CookieAuthWrap`, whose implementation is
not among the visible sources. When a cookie with the configured name is
present, its value is written into the request's `Authorization` header,
clobbering any prior value; the request is always forwarded exactly once. -/
def cookieAuthWrap (handler : Request → Response) (cookieName : String)
    (req : Request) : Response × List Request :=
  match getEntry req.cookies cookieName with
  | some v =>
      (handler { req with headers := setEntry req.headers "Authorization" v },
       [{ req with headers := setEntry req.headers "Authorization" v }])
  | none => (handler req, [req])

/-- Modelled from the spec: the status-401 response the Basic Auth Decorator
produces through the Error Responder on rejection. -/
def unauthorizedResponse : Response :=
  { status := 401, headers := [],
    body := errorJSON { type := unauthorizedType, message := statusText 401 } }

/-- Modelled from the spec: `handlers.BasicAuthWrap`, whose implementation is
not among the visible sources. The request's Basic credentials must equal the
configured username/password pair exactly; otherwise the wrapped handler is
not called and a 401 response with the serialized "Unauthorized" error is
produced. -/
def basicAuthWrap (handler : Request → Response) (username password : String)
    (req : Request) : Response × List Request :=
  match parseBasicAuth (getEntryD req.headers "Authorization") with
  | some (u, p) =>
      if u = username ∧ p = password then (handler req, [req])
      else (unauthorizedResponse, [])
  | none => (unauthorizedResponse, [])

/-- The Go type of a serialized struct field in resources.go. External model
types (`models.ExecutorAction`, `models.LogConfig`) are out-of-scope data
shapes, represented here only as type tags. -/
inductive GoType where
  | executorActionList
  | logConfig
  | str
  | float64
  | goInt
  | goBool
deriving DecidableEq

/-- A JSON field of a Go struct: the serialized key from the `json:"..."`
tag, the field's Go type, and whether the tag carries `omitempty`. -/
structure JSONField where
  key : String
  gotype : GoType
  omitempty : Bool
deriving DecidableEq

/-- The JSON field layout of `receptor.CreateTaskRequest` (resources.go),
in source order. -/
def createTaskRequestFields : List JSONField :=
  [⟨"actions", .executorActionList, false⟩,
   ⟨"annotation", .str, true⟩,
   ⟨"completion_callback_url", .str, false⟩,
   ⟨"cpu_percent", .float64, false⟩,
   ⟨"disk_mb", .goInt, false⟩,
   ⟨"domain", .str, false⟩,
   ⟨"log", .logConfig, false⟩,
   ⟨"memory_mb", .goInt, false⟩,
   ⟨"result_file", .str, false⟩,
   ⟨"stack", .str, false⟩,
   ⟨"task_guid", .str, false⟩]

/-- The JSON field layout of `receptor.TaskResponse` (resources.go), in
source order. -/
def taskResponseFields : List JSONField :=
  [⟨"actions", .executorActionList, false⟩,
   ⟨"annotation", .str, true⟩,
   ⟨"completion_callback_url", .str, false⟩,
   ⟨"cpu_percent", .float64, false⟩,
   ⟨"disk_mb", .goInt, false⟩,
   ⟨"domain", .str, false⟩,
   ⟨"log", .logConfig, false⟩,
   ⟨"memory_mb", .goInt, false⟩,
   ⟨"result_file", .str, false⟩,
   ⟨"stack", .str, false⟩,
   ⟨"task_guid", .str, false⟩,
   ⟨"failed", .goBool, false⟩,
   ⟨"failure_reason", .str, false⟩,
   ⟨"result", .str, false⟩,
   ⟨"state", .str, false⟩]

/-- Go `encoding/json` key emission for a struct described by `fields`: a key
is omitted exactly when its tag has `omitempty` and the field's value is the
empty value for its type (for a string field, the empty string). `isEmptyVal`
says, for the field serialized under a given key, whether its current value
is that empty value. -/
def serializedKeys (fields : List JSONField) (isEmptyVal : String → Bool) :
    List String :=
  fields.filterMap fun f =>
    if f.omitempty && isEmptyVal f.key then none else some f.key

/-! ## Helper equations for the three decorator branches -/

theorem basicAuthWrap_eq_reject (handler : Request → Response)
    (username password : String) (req : Request)
    (h : parseBasicAuth (getEntryD req.headers "Authorization") ≠
      some (username, password)) :
    basicAuthWrap handler username password req = (unauthorizedResponse, []) := by
  unfold basicAuthWrap
  rcases hp : parseBasicAuth (getEntryD req.headers "Authorization") with _ | ⟨u, p⟩
  · rfl
  · show (if u = username ∧ p = password then (handler req, [req])
        else (unauthorizedResponse, [])) = (unauthorizedResponse, [])
    exact if_neg fun hc => h (by rw [hp, hc.1, hc.2])

theorem basicAuthWrap_eq_accept (handler : Request → Response)
    (username password : String) (req : Request)
    (h : parseBasicAuth (getEntryD req.headers "Authorization") =
      some (username, password)) :
    basicAuthWrap handler username password req = (handler req, [req]) := by
  unfold basicAuthWrap
  rw [h]
  simp

theorem corsWrapper_eq_preflight (handler : Request → Response) (req : Request)
    (h : isPreflight req = true) :
    corsWrapper handler req =
      ({ status := 200,
         headers :=
           [("Access-Control-Allow-Origin", getEntryD req.headers "Origin"),
            ("Access-Control-Allow-Credentials", "true"),
            ("Access-Control-Allow-Methods",
              getEntryD req.headers "Access-Control-Request-Method"),
            ("Access-Control-Allow-Headers",
              getEntryD req.headers "Access-Control-Request-Headers")],
         body := "" }, []) := by
  unfold corsWrapper
  rw [if_pos h]

theorem corsWrapper_eq_annotate (handler : Request → Response) (req : Request)
    (h : isPreflight req = false)
    (h1 : getEntryD req.headers "Origin" ≠ "")
    (h2 : getEntryD req.headers "Origin" ≠ "*") :
    corsWrapper handler req =
      ({ handler req with
          headers :=
            setEntry
              (setEntry (handler req).headers "Access-Control-Allow-Origin"
                (getEntryD req.headers "Origin"))
              "Access-Control-Allow-Credentials" "true" }, [req]) := by
  unfold corsWrapper
  rw [if_neg (by simp [h]), if_pos ⟨h1, h2⟩]

theorem corsWrapper_eq_plain (handler : Request → Response) (req : Request)
    (h : isPreflight req = false)
    (ho : getEntryD req.headers "Origin" = "" ∨ getEntryD req.headers "Origin" = "*") :
    corsWrapper handler req = (handler req, [req]) := by
  unfold corsWrapper
  rw [if_neg (by simp [h]), if_neg (by rcases ho with ho | ho <;> simp [ho])]

theorem cookieAuthWrap_forwards (handler : Request → Response)
    (cookieName : String) (req : Request) :
    ∃ r, cookieAuthWrap handler cookieName req = (handler r, [r]) := by
  unfold cookieAuthWrap
  cases getEntry req.cookies cookieName
  · exact ⟨req, rfl⟩
  · exact ⟨_, rfl⟩

/-! ## Theorems -/

/-- C1: a request carrying no Basic credentials, or a username/password pair
that does not equal the configured pair byte for byte, is rejected by the
Basic Auth Decorator: the wrapped handler is not called, the status is 401,
and the body is exactly the JSON serialization of the "Unauthorized" error
whose message is the canonical text for status 401. -/
theorem basicAuthWrap_unauthorized (handler : Request → Response)
    (username password : String) (req : Request)
    (h : parseBasicAuth (getEntryD req.headers "Authorization") ≠
      some (username, password)) :
    (basicAuthWrap handler username password req).2 = [] ∧
    (basicAuthWrap handler username password req).1.status = 401 ∧
    (basicAuthWrap handler username password req).1.body =
      errorJSON { type := unauthorizedType, message := statusText 401 } ∧
    (basicAuthWrap handler username password req).1.body =
      "\x7b\"type\":\"Unauthorized\",\"message\":\"Unauthorized\"\x7d" ∧
    statusText 401 = "Unauthorized" := by
  rw [basicAuthWrap_eq_reject handler username password req h]
  exact ⟨rfl, rfl, rfl, rfl, rfl⟩

/-- C1 witness: concrete rejection of a request carrying no credentials. -/
theorem basicAuthWrap_unauthorized_witness :
    (parseBasicAuth (getEntryD (Request.mk "GET" [] []).headers "Authorization") ≠
      some ("user", "pass")) ∧
    ((basicAuthWrap (fun _ => Response.mk 200 [] "ok") "user" "pass"
        (Request.mk "GET" [] [])).2 = [] ∧
      (basicAuthWrap (fun _ => Response.mk 200 [] "ok") "user" "pass"
        (Request.mk "GET" [] [])).1.status = 401 ∧
      (basicAuthWrap (fun _ => Response.mk 200 [] "ok") "user" "pass"
        (Request.mk "GET" [] [])).1.body =
        errorJSON { type := unauthorizedType, message := statusText 401 } ∧
      (basicAuthWrap (fun _ => Response.mk 200 [] "ok") "user" "pass"
        (Request.mk "GET" [] [])).1.body =
        "\x7b\"type\":\"Unauthorized\",\"message\":\"Unauthorized\"\x7d" ∧
      statusText 401 = "Unauthorized") :=
  ⟨by decide,
   basicAuthWrap_unauthorized (fun _ => Response.mk 200 [] "ok") "user" "pass"
     (Request.mk "GET" [] []) (by decide)⟩

/-- C2: a request whose Basic credentials exactly match the configured
username and password is forwarded to the wrapped handler exactly once, and
the wrapped handler's response is returned unmodified. -/
theorem basicAuthWrap_authorized (handler : Request → Response)
    (username password : String) (req : Request)
    (h : parseBasicAuth (getEntryD req.headers "Authorization") =
      some (username, password)) :
    basicAuthWrap handler username password req = (handler req, [req]) :=
  basicAuthWrap_eq_accept handler username password req h

/-- C2 witness: concrete acceptance of `user:pass` credentials, base64-encoded
as `dXNlcjpwYXNz`. -/
theorem basicAuthWrap_authorized_witness :
    (parseBasicAuth
        (getEntryD (Request.mk "GET" [("Authorization", "Basic dXNlcjpwYXNz")]
          []).headers "Authorization") = some ("user", "pass")) ∧
    basicAuthWrap (fun _ => Response.mk 200 [] "ok") "user" "pass"
        (Request.mk "GET" [("Authorization", "Basic dXNlcjpwYXNz")] []) =
      ((fun _ => Response.mk 200 [] "ok")
          (Request.mk "GET" [("Authorization", "Basic dXNlcjpwYXNz")] []),
        [Request.mk "GET" [("Authorization", "Basic dXNlcjpwYXNz")] []]) :=
  ⟨by decide,
   basicAuthWrap_authorized (fun _ => Response.mk 200 [] "ok") "user" "pass"
     (Request.mk "GET" [("Authorization", "Basic dXNlcjpwYXNz")] []) (by decide)⟩

/-- C3: an `OPTIONS` request carrying `Access-Control-Request-Method` is a
CORS preflight: the wrapped handler is called zero times, the status is 200,
and all four CORS headers are set, echoing the request's `Origin`,
`Access-Control-Request-Method` and `Access-Control-Request-Headers`. -/
theorem corsWrapper_preflight (handler : Request → Response) (req : Request)
    (h : isPreflight req = true) :
    (corsWrapper handler req).2 = [] ∧
    (corsWrapper handler req).1.status = 200 ∧
    getEntry (corsWrapper handler req).1.headers "Access-Control-Allow-Origin" =
      some (getEntryD req.headers "Origin") ∧
    getEntry (corsWrapper handler req).1.headers "Access-Control-Allow-Credentials" =
      some "true" ∧
    getEntry (corsWrapper handler req).1.headers "Access-Control-Allow-Methods" =
      some (getEntryD req.headers "Access-Control-Request-Method") ∧
    getEntry (corsWrapper handler req).1.headers "Access-Control-Allow-Headers" =
      some (getEntryD req.headers "Access-Control-Request-Headers") := by
  rw [corsWrapper_eq_preflight handler req h]
  exact ⟨rfl, rfl, rfl, rfl, rfl, rfl⟩

/-- C3 witness: a concrete preflight request, echoed concretely. -/
theorem corsWrapper_preflight_witness :
    (isPreflight (Request.mk "OPTIONS"
        [("Origin", "example.com"), ("Access-Control-Request-Method", "PUT"),
         ("Access-Control-Request-Headers", "content-type,authorization")] []) =
      true) ∧
    ((corsWrapper (fun _ => Response.mk 418 [] "teapot")
        (Request.mk "OPTIONS"
          [("Origin", "example.com"), ("Access-Control-Request-Method", "PUT"),
           ("Access-Control-Request-Headers", "content-type,authorization")]
          [])).2 = [] ∧
      (corsWrapper (fun _ => Response.mk 418 [] "teapot")
        (Request.mk "OPTIONS"
          [("Origin", "example.com"), ("Access-Control-Request-Method", "PUT"),
           ("Access-Control-Request-Headers", "content-type,authorization")]
          [])).1.status = 200 ∧
      getEntry (corsWrapper (fun _ => Response.mk 418 [] "teapot")
        (Request.mk "OPTIONS"
          [("Origin", "example.com"), ("Access-Control-Request-Method", "PUT"),
           ("Access-Control-Request-Headers", "content-type,authorization")]
          [])).1.headers "Access-Control-Allow-Origin" =
        some (getEntryD (Request.mk "OPTIONS"
          [("Origin", "example.com"), ("Access-Control-Request-Method", "PUT"),
           ("Access-Control-Request-Headers", "content-type,authorization")]
          []).headers "Origin") ∧
      getEntry (corsWrapper (fun _ => Response.mk 418 [] "teapot")
        (Request.mk "OPTIONS"
          [("Origin", "example.com"), ("Access-Control-Request-Method", "PUT"),
           ("Access-Control-Request-Headers", "content-type,authorization")]
          [])).1.headers "Access-Control-Allow-Credentials" = some "true" ∧
      getEntry (corsWrapper (fun _ => Response.mk 418 [] "teapot")
        (Request.mk "OPTIONS"
          [("Origin", "example.com"), ("Access-Control-Request-Method", "PUT"),
           ("Access-Control-Request-Headers", "content-type,authorization")]
          [])).1.headers "Access-Control-Allow-Methods" =
        some (getEntryD (Request.mk "OPTIONS"
          [("Origin", "example.com"), ("Access-Control-Request-Method", "PUT"),
           ("Access-Control-Request-Headers", "content-type,authorization")]
          []).headers "Access-Control-Request-Method") ∧
      getEntry (corsWrapper (fun _ => Response.mk 418 [] "teapot")
        (Request.mk "OPTIONS"
          [("Origin", "example.com"), ("Access-Control-Request-Method", "PUT"),
           ("Access-Control-Request-Headers", "content-type,authorization")]
          [])).1.headers "Access-Control-Allow-Headers" =
        some (getEntryD (Request.mk "OPTIONS"
          [("Origin", "example.com"), ("Access-Control-Request-Method", "PUT"),
           ("Access-Control-Request-Headers", "content-type,authorization")]
          []).headers "Access-Control-Request-Headers")) :=
  ⟨by decide,
   corsWrapper_preflight (fun _ => Response.mk 418 [] "teapot")
     (Request.mk "OPTIONS"
       [("Origin", "example.com"), ("Access-Control-Request-Method", "PUT"),
        ("Access-Control-Request-Headers", "content-type,authorization")] [])
     (by decide)⟩

/-- C4: a non-preflight request with a non-empty `Origin` other than `"*"` is
forwarded to the wrapped handler exactly once, and the response carries
`Access-Control-Allow-Origin` set to exactly the request's origin and
`Access-Control-Allow-Credentials` set to `"true"`, with the wrapped
handler's status and body untouched. -/
theorem corsWrapper_validOrigin (handler : Request → Response) (req : Request)
    (h : isPreflight req = false)
    (h1 : getEntryD req.headers "Origin" ≠ "")
    (h2 : getEntryD req.headers "Origin" ≠ "*") :
    (corsWrapper handler req).2 = [req] ∧
    getEntry (corsWrapper handler req).1.headers "Access-Control-Allow-Origin" =
      some (getEntryD req.headers "Origin") ∧
    getEntry (corsWrapper handler req).1.headers "Access-Control-Allow-Credentials" =
      some "true" ∧
    (corsWrapper handler req).1.status = (handler req).status ∧
    (corsWrapper handler req).1.body = (handler req).body := by
  rw [corsWrapper_eq_annotate handler req h h1 h2]
  refine ⟨rfl, ?_, ?_, rfl, rfl⟩
  · rw [getEntry_setEntry_other _ _ _ _ (by decide)]
    exact getEntry_setEntry_same _ _ _
  · exact getEntry_setEntry_same _ _ _

/-- C4 witness: a concrete GET request with origin `example.com`. -/
theorem corsWrapper_validOrigin_witness :
    (isPreflight (Request.mk "GET" [("Origin", "example.com")] []) = false) ∧
    (getEntryD (Request.mk "GET" [("Origin", "example.com")] []).headers
      "Origin" ≠ "") ∧
    (getEntryD (Request.mk "GET" [("Origin", "example.com")] []).headers
      "Origin" ≠ "*") ∧
    ((corsWrapper (fun _ => Response.mk 204 [] "")
        (Request.mk "GET" [("Origin", "example.com")] [])).2 =
      [Request.mk "GET" [("Origin", "example.com")] []] ∧
      getEntry (corsWrapper (fun _ => Response.mk 204 [] "")
        (Request.mk "GET" [("Origin", "example.com")] [])).1.headers
        "Access-Control-Allow-Origin" =
        some (getEntryD (Request.mk "GET" [("Origin", "example.com")]
          []).headers "Origin") ∧
      getEntry (corsWrapper (fun _ => Response.mk 204 [] "")
        (Request.mk "GET" [("Origin", "example.com")] [])).1.headers
        "Access-Control-Allow-Credentials" = some "true" ∧
      (corsWrapper (fun _ => Response.mk 204 [] "")
        (Request.mk "GET" [("Origin", "example.com")] [])).1.status =
        ((fun _ => Response.mk 204 [] "")
          (Request.mk "GET" [("Origin", "example.com")] [])).status ∧
      (corsWrapper (fun _ => Response.mk 204 [] "")
        (Request.mk "GET" [("Origin", "example.com")] [])).1.body =
        ((fun _ => Response.mk 204 [] "")
          (Request.mk "GET" [("Origin", "example.com")] [])).body) :=
  ⟨by decide, by decide, by decide,
   corsWrapper_validOrigin (fun _ => Response.mk 204 [] "")
     (Request.mk "GET" [("Origin", "example.com")] [])
     (by decide) (by decide) (by decide)⟩

/-- C5: a non-preflight request whose `Origin` is absent, empty, or `"*"` is
still forwarded to the wrapped handler exactly once, and the decorator sets
neither `Access-Control-Allow-Origin` nor `Access-Control-Allow-Credentials`:
the wrapped handler's response is returned as is. -/
theorem corsWrapper_rejectedOrigin (handler : Request → Response) (req : Request)
    (h : isPreflight req = false)
    (ho : getEntryD req.headers "Origin" = "" ∨
      getEntryD req.headers "Origin" = "*") :
    corsWrapper handler req = (handler req, [req]) ∧
    getEntry (corsWrapper handler req).1.headers "Access-Control-Allow-Origin" =
      getEntry (handler req).headers "Access-Control-Allow-Origin" ∧
    getEntry (corsWrapper handler req).1.headers "Access-Control-Allow-Credentials" =
      getEntry (handler req).headers "Access-Control-Allow-Credentials" := by
  rw [corsWrapper_eq_plain handler req h ho]
  exact ⟨rfl, rfl, rfl⟩

/-- C5 witness: a concrete request with the wildcard origin. -/
theorem corsWrapper_rejectedOrigin_witness :
    (isPreflight (Request.mk "GET" [("Origin", "*")] []) = false) ∧
    (getEntryD (Request.mk "GET" [("Origin", "*")] []).headers "Origin" = "" ∨
      getEntryD (Request.mk "GET" [("Origin", "*")] []).headers "Origin" = "*") ∧
    (corsWrapper (fun _ => Response.mk 204 [] "")
        (Request.mk "GET" [("Origin", "*")] []) =
      ((fun _ => Response.mk 204 [] "") (Request.mk "GET" [("Origin", "*")] []),
        [Request.mk "GET" [("Origin", "*")] []]) ∧
      getEntry (corsWrapper (fun _ => Response.mk 204 [] "")
        (Request.mk "GET" [("Origin", "*")] [])).1.headers
        "Access-Control-Allow-Origin" =
        getEntry ((fun _ => Response.mk 204 [] "")
          (Request.mk "GET" [("Origin", "*")] [])).headers
          "Access-Control-Allow-Origin" ∧
      getEntry (corsWrapper (fun _ => Response.mk 204 [] "")
        (Request.mk "GET" [("Origin", "*")] [])).1.headers
        "Access-Control-Allow-Credentials" =
        getEntry ((fun _ => Response.mk 204 [] "")
          (Request.mk "GET" [("Origin", "*")] [])).headers
          "Access-Control-Allow-Credentials") :=
  ⟨by decide, by decide,
   corsWrapper_rejectedOrigin (fun _ => Response.mk 204 [] "")
     (Request.mk "GET" [("Origin", "*")] []) (by decide) (by decide)⟩

/-- C6: when a cookie with the configured name is present, the Cookie Bridge
Decorator writes its value into the request's `Authorization` header
(clobbering any prior value) and forwards exactly once, so the wrapped
handler observes the cookie's value as the `Authorization` header. -/
theorem cookieAuthWrap_present (handler : Request → Response)
    (cookieName v : String) (req : Request)
    (h : getEntry req.cookies cookieName = some v) :
    (cookieAuthWrap handler cookieName req).2 =
      [{ req with headers := setEntry req.headers "Authorization" v }] ∧
    (∀ r ∈ (cookieAuthWrap handler cookieName req).2,
      getEntryD r.headers "Authorization" = v) ∧
    (cookieAuthWrap handler cookieName req).1 =
      handler { req with headers := setEntry req.headers "Authorization" v } := by
  have e : cookieAuthWrap handler cookieName req =
      (handler { req with headers := setEntry req.headers "Authorization" v },
       [{ req with headers := setEntry req.headers "Authorization" v }]) := by
    unfold cookieAuthWrap
    rw [h]
  rw [e]
  refine ⟨rfl, ?_, rfl⟩
  intro r hr
  rw [List.mem_singleton] at hr
  subst hr
  exact getEntryD_setEntry_same _ _ _

/-- C6 witness: the test scenario — cookie `Cookie-Authorization=some-auth`
clobbers a prior `Authorization: some-clobbered-auth`. -/
theorem cookieAuthWrap_present_witness :
    (getEntry (Request.mk "GET" [("Authorization", "some-clobbered-auth")]
        [("Cookie-Authorization", "some-auth")]).cookies "Cookie-Authorization" =
      some "some-auth") ∧
    ((cookieAuthWrap (fun _ => Response.mk 200 [] "ok") "Cookie-Authorization"
        (Request.mk "GET" [("Authorization", "some-clobbered-auth")]
          [("Cookie-Authorization", "some-auth")])).2 =
      [{ Request.mk "GET" [("Authorization", "some-clobbered-auth")]
          [("Cookie-Authorization", "some-auth")] with
          headers :=
            setEntry (Request.mk "GET" [("Authorization", "some-clobbered-auth")]
              [("Cookie-Authorization", "some-auth")]).headers
              "Authorization" "some-auth" }] ∧
      (∀ r ∈ (cookieAuthWrap (fun _ => Response.mk 200 [] "ok")
          "Cookie-Authorization"
          (Request.mk "GET" [("Authorization", "some-clobbered-auth")]
            [("Cookie-Authorization", "some-auth")])).2,
        getEntryD r.headers "Authorization" = "some-auth") ∧
      (cookieAuthWrap (fun _ => Response.mk 200 [] "ok") "Cookie-Authorization"
        (Request.mk "GET" [("Authorization", "some-clobbered-auth")]
          [("Cookie-Authorization", "some-auth")])).1 =
        (fun _ => Response.mk 200 [] "ok")
          { Request.mk "GET" [("Authorization", "some-clobbered-auth")]
              [("Cookie-Authorization", "some-auth")] with
            headers :=
              setEntry (Request.mk "GET"
                [("Authorization", "some-clobbered-auth")]
                [("Cookie-Authorization", "some-auth")]).headers
                "Authorization" "some-auth" }) :=
  ⟨by decide,
   cookieAuthWrap_present (fun _ => Response.mk 200 [] "ok")
     "Cookie-Authorization" "some-auth"
     (Request.mk "GET" [("Authorization", "some-clobbered-auth")]
       [("Cookie-Authorization", "some-auth")]) (by decide)⟩

/-- C7: when no cookie with the configured name is present, the Cookie Bridge
Decorator forwards the request unchanged (any prior `Authorization` value
survives) exactly once; moreover the decorator never rejects: on every
request the wrapped handler is called exactly once. -/
theorem cookieAuthWrap_absent (handler : Request → Response)
    (cookieName : String) (req : Request)
    (h : getEntry req.cookies cookieName = none) :
    cookieAuthWrap handler cookieName req = (handler req, [req]) ∧
    (∀ r ∈ (cookieAuthWrap handler cookieName req).2,
      getEntryD r.headers "Authorization" = getEntryD req.headers "Authorization") ∧
    (∀ r : Request, (cookieAuthWrap handler cookieName r).2.length = 1) := by
  have e : cookieAuthWrap handler cookieName req = (handler req, [req]) := by
    unfold cookieAuthWrap
    rw [h]
  refine ⟨e, ?_, ?_⟩
  · rw [e]
    intro r hr
    rw [List.mem_singleton] at hr
    subst hr
    rfl
  · intro r
    obtain ⟨r2, hr2⟩ := cookieAuthWrap_forwards handler cookieName r
    rw [hr2]
    rfl

/-- C7 witness: the test scenario — no cookie, prior
`Authorization: some-not-clobbered-auth` survives. -/
theorem cookieAuthWrap_absent_witness :
    (getEntry (Request.mk "GET" [("Authorization", "some-not-clobbered-auth")]
        []).cookies "Cookie-Authorization" = none) ∧
    (cookieAuthWrap (fun _ => Response.mk 200 [] "ok") "Cookie-Authorization"
        (Request.mk "GET" [("Authorization", "some-not-clobbered-auth")] []) =
      ((fun _ => Response.mk 200 [] "ok")
         (Request.mk "GET" [("Authorization", "some-not-clobbered-auth")] []),
       [Request.mk "GET" [("Authorization", "some-not-clobbered-auth")] []]) ∧
      (∀ r ∈ (cookieAuthWrap (fun _ => Response.mk 200 [] "ok")
          "Cookie-Authorization"
          (Request.mk "GET" [("Authorization", "some-not-clobbered-auth")]
            [])).2,
        getEntryD r.headers "Authorization" =
          getEntryD (Request.mk "GET"
            [("Authorization", "some-not-clobbered-auth")] []).headers
            "Authorization") ∧
      (∀ r : Request,
        (cookieAuthWrap (fun _ => Response.mk 200 [] "ok")
          "Cookie-Authorization" r).2.length = 1)) :=
  ⟨by decide,
   cookieAuthWrap_absent (fun _ => Response.mk 200 [] "ok")
     "Cookie-Authorization"
     (Request.mk "GET" [("Authorization", "some-not-clobbered-auth")] [])
     (by decide)⟩

/-- C8: the only short-circuit statuses of the middleware layer are 200 (CORS
preflight, wrapped handler not called) and 401 (Basic Auth rejection, wrapped
handler not called); on every other path each decorator forwards exactly once
and passes the wrapped handler's status through unchanged. -/
theorem middleware_status_codes (handler : Request → Response)
    (cookieName username password : String) (req : Request) :
    (((corsWrapper handler req).2 = [] ∧
        (corsWrapper handler req).1.status = 200) ∨
      (∃ r, (corsWrapper handler req).2 = [r] ∧
        (corsWrapper handler req).1.status = (handler r).status)) ∧
    (∃ r, (cookieAuthWrap handler cookieName req).2 = [r] ∧
      (cookieAuthWrap handler cookieName req).1.status = (handler r).status) ∧
    (((basicAuthWrap handler username password req).2 = [] ∧
        (basicAuthWrap handler username password req).1.status = 401) ∨
      (∃ r, (basicAuthWrap handler username password req).2 = [r] ∧
        (basicAuthWrap handler username password req).1.status =
          (handler r).status)) := by
  refine ⟨?_, ?_, ?_⟩
  · by_cases hp : isPreflight req = true
    · left
      rw [corsWrapper_eq_preflight handler req hp]
      exact ⟨rfl, rfl⟩
    · right
      refine ⟨req, ?_⟩
      have hp2 : isPreflight req = false := by simpa using hp
      by_cases ho : getEntryD req.headers "Origin" = "" ∨
        getEntryD req.headers "Origin" = "*"
      · rw [corsWrapper_eq_plain handler req hp2 ho]
        exact ⟨rfl, rfl⟩
      · push_neg at ho
        rw [corsWrapper_eq_annotate handler req hp2 ho.1 ho.2]
        exact ⟨rfl, rfl⟩
  · obtain ⟨r, hr⟩ := cookieAuthWrap_forwards handler cookieName req
    rw [hr]
    exact ⟨r, rfl, rfl⟩
  · by_cases hb : parseBasicAuth (getEntryD req.headers "Authorization") =
      some (username, password)
    · right
      rw [basicAuthWrap_eq_accept handler username password req hb]
      exact ⟨req, rfl, rfl⟩
    · left
      rw [basicAuthWrap_eq_reject handler username password req hb]
      exact ⟨rfl, rfl⟩

/-- C9: every decorator is stateless across requests — the observable result
(response and forwarding decision) of a run is a function of the wrapped
handler, the configuration and the request alone, so two runs on identical
fresh request objects yield identical results. -/
theorem middleware_stateless (handler : Request → Response)
    (cookieName username password : String) (req1 req2 : Request)
    (h : req1 = req2) :
    corsWrapper handler req1 = corsWrapper handler req2 ∧
    cookieAuthWrap handler cookieName req1 = cookieAuthWrap handler cookieName req2 ∧
    basicAuthWrap handler username password req1 =
      basicAuthWrap handler username password req2 := by
  subst h
  exact ⟨rfl, rfl, rfl⟩

/-- C9 witness: two runs on equal concrete fresh requests coincide. -/
theorem middleware_stateless_witness :
    (Request.mk "GET" [("Origin", "example.com")] [] =
      Request.mk "GET" [("Origin", "example.com")] []) ∧
    (corsWrapper (fun _ => Response.mk 200 [] "ok")
        (Request.mk "GET" [("Origin", "example.com")] []) =
      corsWrapper (fun _ => Response.mk 200 [] "ok")
        (Request.mk "GET" [("Origin", "example.com")] []) ∧
      cookieAuthWrap (fun _ => Response.mk 200 [] "ok") "Cookie-Authorization"
        (Request.mk "GET" [("Origin", "example.com")] []) =
      cookieAuthWrap (fun _ => Response.mk 200 [] "ok") "Cookie-Authorization"
        (Request.mk "GET" [("Origin", "example.com")] []) ∧
      basicAuthWrap (fun _ => Response.mk 200 [] "ok") "user" "pass"
        (Request.mk "GET" [("Origin", "example.com")] []) =
      basicAuthWrap (fun _ => Response.mk 200 [] "ok") "user" "pass"
        (Request.mk "GET" [("Origin", "example.com")] [])) :=
  ⟨rfl,
   middleware_stateless (fun _ => Response.mk 200 [] "ok")
     "Cookie-Authorization" "user" "pass"
     (Request.mk "GET" [("Origin", "example.com")] [])
     (Request.mk "GET" [("Origin", "example.com")] []) rfl⟩

theorem serializedKeys_createTaskRequest (e : String → Bool) :
    serializedKeys createTaskRequestFields e =
      if e "annotation" then
        ["actions", "completion_callback_url", "cpu_percent", "disk_mb",
         "domain", "log", "memory_mb", "result_file", "stack", "task_guid"]
      else
        ["actions", "annotation", "completion_callback_url", "cpu_percent",
         "disk_mb", "domain", "log", "memory_mb", "result_file", "stack",
         "task_guid"] := by
  cases he : e "annotation" <;>
    simp [serializedKeys, createTaskRequestFields, he]

theorem serializedKeys_taskResponse (e : String → Bool) :
    serializedKeys taskResponseFields e =
      if e "annotation" then
        ["actions", "completion_callback_url", "cpu_percent", "disk_mb",
         "domain", "log", "memory_mb", "result_file", "stack", "task_guid",
         "failed", "failure_reason", "result", "state"]
      else
        ["actions", "annotation", "completion_callback_url", "cpu_percent",
         "disk_mb", "domain", "log", "memory_mb", "result_file", "stack",
         "task_guid", "failed", "failure_reason", "result", "state"] := by
  cases he : e "annotation" <;>
    simp [serializedKeys, taskResponseFields, he]

/-- C10: every JSON field of `CreateTaskRequest` appears in `TaskResponse`
with the identical key, Go type and `omitempty` flag; and under Go
`encoding/json` key emission, in both shapes the `annotation` key is omitted
exactly when the field's value is empty (for its string type, the empty
string), while every other `CreateTaskRequest` key is always present. -/
theorem createTaskRequest_fields_in_taskResponse :
    (∀ f ∈ createTaskRequestFields, f ∈ taskResponseFields) ∧
    (∀ e : String → Bool, ∀ f ∈ createTaskRequestFields,
      (f.key ∈ serializedKeys createTaskRequestFields e ↔
        (f.key = "annotation" → e "annotation" = false)) ∧
      (f.key ∈ serializedKeys taskResponseFields e ↔
        (f.key = "annotation" → e "annotation" = false))) := by
  constructor
  · decide
  · intro e f hf
    rw [serializedKeys_createTaskRequest e, serializedKeys_taskResponse e]
    fin_cases hf <;> cases he : e "annotation" <;> simp [he]

end Receptor
